import Mathlib

/-!
Shallow embedding of the translation-dispatch-and-recipient-resolution
pipeline of the Boom-translation-bot repository (src/main.py and
src/main_oracle.py), together with theorems checking the specification's
claims against it.

Python dictionaries are modelled as insertion-ordered association lists,
python sets of strings as duplicate-free lists built by membership-guarded
append, and the outcome of one outbound HTTP call (issued inside a
try/except) as an explicit `CallOutcome` value supplied by the environment.
-/

set_option maxRecDepth 4000

/-- Lookup in a python dict modelled as an insertion-ordered assoc list. -/
def pyGet {α β : Type} [DecidableEq α] : List (α × β) → α → Option β
  | [], _ => none
  | p :: rest, k => if p.1 = k then some p.2 else pyGet rest k

/-- `d[k] = v` on a python dict: update in place if present, else append. -/
def pySet {α β : Type} [DecidableEq α] : List (α × β) → α → β → List (α × β)
  | [], k, v => [(k, v)]
  | p :: rest, k, v => if p.1 = k then (k, v) :: rest else p :: pySet rest k v

/-- `s.add(x)` on a python set modelled as a duplicate-free list. -/
def pySetAdd (l : List String) (x : String) : List String :=
  if x ∈ l then l else l ++ [x]

/-- `s.update(xs)` on a python set modelled as a duplicate-free list. -/
def pySetUnion (l : List String) (xs : List String) : List String :=
  xs.foldl pySetAdd l

/-- How python str() renders the optional source language inside an f-string
key: `None` for absent, the string itself otherwise. -/
def pyShowOpt : Option String → String
  | none => "None"
  | some s => s

/-- Python slicing `text[:50]`, used by main_oracle.py cache keys. -/
def pySlice50 (s : String) : String := String.mk (s.toList.take 50)

-- ==================== Language registry (src/main.py LANGUAGES) ====================

/-- src/main.py `LanguageConfig` dataclass. -/
structure LanguageConfig where
  code : String
  name : String
  flag : String
  deepl_code : String
  azure_code : String
  google_code : String
deriving DecidableEq

/-- src/main.py `LANGUAGES` dict, in source order. -/
def LANGUAGES : List (String × LanguageConfig) := [
  ("en", ⟨"en", "English", "🇬🇧", "EN", "en", "en"⟩),
  ("es", ⟨"es", "Spanish", "🇪🇸", "ES", "es", "es"⟩),
  ("fr", ⟨"fr", "French", "🇫🇷", "FR", "fr", "fr"⟩),
  ("de", ⟨"de", "German", "🇩🇪", "DE", "de", "de"⟩),
  ("it", ⟨"it", "Italian", "🇮🇹", "IT", "it", "it"⟩),
  ("pt", ⟨"pt", "Portuguese", "🇵🇹", "PT-PT", "pt", "pt"⟩),
  ("ru", ⟨"ru", "Russian", "🇷🇺", "RU", "ru", "ru"⟩),
  ("ja", ⟨"ja", "Japanese", "🇯🇵", "JA", "ja", "ja"⟩),
  ("ko", ⟨"ko", "Korean", "🇰🇷", "KO", "ko", "ko"⟩),
  ("zh", ⟨"zh", "Chinese", "🇨🇳", "ZH", "zh-Hans", "zh-CN"⟩),
  ("ar", ⟨"ar", "Arabic", "🇸🇦", "AR", "ar", "ar"⟩),
  ("hi", ⟨"hi", "Hindi", "🇮🇳", "HI", "hi", "hi"⟩),
  ("tr", ⟨"tr", "Turkish", "🇹🇷", "TR", "tr", "tr"⟩),
  ("pl", ⟨"pl", "Polish", "🇵🇱", "PL", "pl", "pl"⟩),
  ("nl", ⟨"nl", "Dutch", "🇳🇱", "NL", "nl", "nl"⟩),
  ("sv", ⟨"sv", "Swedish", "🇸🇪", "SV", "sv", "sv"⟩),
  ("da", ⟨"da", "Danish", "🇩🇰", "DA", "da", "da"⟩),
  ("no", ⟨"no", "Norwegian", "🇳🇴", "NB", "nb", "no"⟩),
  ("fi", ⟨"fi", "Finnish", "🇫🇮", "FI", "fi", "fi"⟩),
  ("el", ⟨"el", "Greek", "🇬🇷", "EL", "el", "el"⟩),
  ("cs", ⟨"cs", "Czech", "🇨🇿", "CS", "cs", "cs"⟩),
  ("hu", ⟨"hu", "Hungarian", "🇭🇺", "HU", "hu", "hu"⟩),
  ("ro", ⟨"ro", "Romanian", "🇷🇴", "RO", "ro", "ro"⟩),
  ("bg", ⟨"bg", "Bulgarian", "🇧🇬", "BG", "bg", "bg"⟩),
  ("uk", ⟨"uk", "Ukrainian", "🇺🇦", "UK", "uk", "uk"⟩),
  ("he", ⟨"he", "Hebrew", "🇮🇱", "HE", "he", "he"⟩),
  ("th", ⟨"th", "Thai", "🇹🇭", "TH", "th", "th"⟩),
  ("vi", ⟨"vi", "Vietnamese", "🇻🇳", "VI", "vi", "vi"⟩),
  ("id", ⟨"id", "Indonesian", "🇮🇩", "ID", "id", "id"⟩),
  ("ms", ⟨"ms", "Malay", "🇲🇾", "MS", "ms", "ms"⟩)]

/-- `LANGUAGES.get(code)` in src/main.py. -/
def LANGUAGES_get (code : String) : Option LanguageConfig :=
  pyGet LANGUAGES code

-- ==================== Outbound HTTP call model ====================

/-- Outcome of the single outbound HTTP call guarded by try/except:
either some exception was raised during the call or while parsing the
response payload (`raised` — transport error, timeout, malformed body),
or a response arrived with a status code and the text the payload
extraction would produce (`none` when extraction itself would raise,
which the except clause also swallows). -/
inductive CallOutcome where
  | raised : CallOutcome
  | ok (status : Nat) (payloadText : Option String) : CallOutcome
deriving DecidableEq

/-- A python exception escaping an embedded function to its caller. -/
inductive PyExn where
  | keyError (k : String)
deriving DecidableEq

/-- Result of one adapter `translate` call: the returned value, the
adapter's cache afterwards, and how many outbound calls were issued. -/
structure TranslateOut where
  result : Option String
  cache : List (String × String)
  outCalls : Nat
deriving DecidableEq

/-- The try/except block shared by the main.py adapters' `translate`:
on status 200 the extracted text is cached and returned; any raised
exception or other status falls through to `return None`. -/
def http_try (net : CallOutcome) (cache : List (String × String))
    (cache_key : String) : TranslateOut :=
  match net with
  | .raised => ⟨none, cache, 1⟩
  | .ok status payloadText =>
    if status = 200 then
      match payloadText with
      | some t => ⟨some t, pySet cache cache_key t, 1⟩
      | none => ⟨none, cache, 1⟩
    else ⟨none, cache, 1⟩

/-- The cache key built by src/main.py `DeepLTranslator.translate`
(line 94): the f-string `deepl_{text}_{target_lang}_{source_lang}` over
the FULL text — no truncation. -/
def deepl_cache_key (text target_lang : String) (source_lang : Option String) : String :=
  "deepl_" ++ text ++ "_" ++ target_lang ++ "_" ++ pyShowOpt source_lang

/-- src/main.py `DeepLTranslator.translate` (lines 93-120).  Note line
109: `LANGUAGES[source_lang]` is evaluated OUTSIDE the try block, so an
unregistered source language raises a KeyError that escapes to the caller
— hence the `Except PyExn` result type. -/
def DeepL_translate (net : CallOutcome) (cache : List (String × String))
    (text target_lang : String) (source_lang : Option String) :
    Except PyExn TranslateOut :=
  match pyGet cache (deepl_cache_key text target_lang source_lang) with
  | some v => .ok ⟨some v, cache, 0⟩
  | none =>
    match LANGUAGES_get target_lang with
    | none => .ok ⟨none, cache, 0⟩
    | some _ =>
      match source_lang with
      | some s =>
        match LANGUAGES_get s with
        | none => .error (.keyError s)
        | some _ => .ok (http_try net cache (deepl_cache_key text target_lang source_lang))
      | none => .ok (http_try net cache (deepl_cache_key text target_lang source_lang))

-- ==================== main_oracle.py variant ====================

/-- src/main_oracle.py `LanguageConfig` dataclass (no google code). -/
structure OracleLanguageConfig where
  code : String
  name : String
  flag : String
  deepl_code : String
  azure_code : String
deriving DecidableEq

/-- src/main_oracle.py `LANGUAGES` dict, in source order (flag strings as
they appear in the file). -/
def ORACLE_LANGUAGES : List (String × OracleLanguageConfig) := [
  ("en", ⟨"en", "English", "üá¨üáß", "EN", "en"⟩),
  ("es", ⟨"es", "Spanish", "üá™üá∏", "ES", "es"⟩),
  ("fr", ⟨"fr", "French", "üá´üá∑", "FR", "fr"⟩),
  ("de", ⟨"de", "German", "üá©üá™", "DE", "de"⟩),
  ("it", ⟨"it", "Italian", "üáÆüáπ", "IT", "it"⟩),
  ("pt", ⟨"pt", "Portuguese", "üáµüáπ", "PT-PT", "pt"⟩),
  ("ru", ⟨"ru", "Russian", "üá∑üá∫", "RU", "ru"⟩),
  ("ar", ⟨"ar", "Arabic", "üá∏üá¶", "AR", "ar"⟩),
  ("ja", ⟨"ja", "Japanese", "üáØüáµ", "JA", "ja"⟩),
  ("zh", ⟨"zh", "Chinese", "üá®üá≥", "ZH", "zh-Hans"⟩),
  ("nl", ⟨"nl", "Dutch", "üá≥üá±", "NL", "nl"⟩),
  ("uk", ⟨"uk", "Ukrainian", "üá∫üá¶", "UK", "uk"⟩),
  ("pl", ⟨"pl", "Polish", "üáµüá±", "PL", "pl"⟩),
  ("tr", ⟨"tr", "Turkish", "üáπüá∑", "TR", "tr"⟩)]

/-- src/main_oracle.py `CACHE_SIZE` (line 36). -/
def ORACLE_CACHE_SIZE : Nat := 5000

/-- The cache key built by src/main_oracle.py `TranslationService.translate`
(line 77): f-string over the FIRST 50 CHARACTERS of the text. -/
def oracle_cache_key (text target_lang : String) (source_lang : Option String) : String :=
  pySlice50 text ++ "_" ++ target_lang ++ "_" ++ pyShowOpt source_lang

/-- src/main_oracle.py `TranslationService.translate` (lines 75-87): check
the cache under the truncated key; on a miss call `_do_translate` (whose
would-be result is the `doRes` argument — one outbound pipeline call) and
store a successful result only while the cache is below `CACHE_SIZE`.
The semaphore only bounds concurrency and is not modelled. -/
def Oracle_service_translate (doRes : Option String)
    (cache : List (String × String)) (text target_lang : String)
    (source_lang : Option String) : TranslateOut :=
  match pyGet cache (oracle_cache_key text target_lang source_lang) with
  | some v => ⟨some v, cache, 0⟩
  | none =>
    match doRes with
    | some r =>
      if cache.length < ORACLE_CACHE_SIZE
      then ⟨some r, pySet cache (oracle_cache_key text target_lang source_lang) r, 1⟩
      else ⟨some r, cache, 1⟩
    | none => ⟨none, cache, 1⟩

/-- src/main_oracle.py `DeepLTranslator._do_translate` (lines 98-120):
target-language lookup, one outbound call with timeout; status 200 returns
the extracted text, anything else (timeout, exception, other status)
returns None.  The source language is never used, so no lookup can raise. -/
def Oracle_DeepL_do (net : CallOutcome) (_text target_lang : String)
    (_source_lang : Option String) : Option String :=
  match pyGet ORACLE_LANGUAGES target_lang with
  | none => none
  | some _ =>
    match net with
    | .raised => none
    | .ok status payloadText => if status = 200 then payloadText else none

-- ==================== Dispatch orchestration ====================

/-- src/main.py `TranslationHandler.translate_message` (lines 326-338),
with each configured adapter abstracted as the text → target → source →
result function it would compute, and an extra trace recording which
providers were actually attempted, in order. -/
def translate_message
    (translators_deepl translators_azure : Option (String → String → Option String → Option String))
    (text target_lang : String) (source_lang : Option String) :
    Option String × List String :=
  match translators_deepl with
  | some deepl =>
    match deepl text target_lang source_lang with
    | some translation => (some translation, ["deepl"])
    | none =>
      match translators_azure with
      | some azure =>
        match azure text target_lang source_lang with
        | some translation => (some translation, ["deepl", "azure"])
        | none => (none, ["deepl", "azure"])
      | none => (none, ["deepl"])
  | none =>
    match translators_azure with
    | some azure =>
      match azure text target_lang source_lang with
      | some translation => (some translation, ["azure"])
      | none => (none, ["azure"])
    | none => (none, [])

/-- src/main_oracle.py `TranslationBot.auto_translate` provider selection
(lines 310-314): `translator = self.translators.get("deepl") or
self.translators.get("azure")`, then a single `translator.translate` call
for the language — the fallback is never consulted after a failure of the
selected provider. -/
def Oracle_auto_pick
    (translators_deepl translators_azure : Option (String → String → Option String → Option String))
    (text target_lang : String) (source_lang : Option String) :
    Option String × List String :=
  match translators_deepl with
  | some deepl => (deepl text target_lang source_lang, ["deepl"])
  | none =>
    match translators_azure with
    | some azure => (azure text target_lang source_lang, ["azure"])
    | none => (none, [])

-- ==================== Language detection (src/main.py AzureTranslator) ====================

/-- src/main.py `AzureTranslator.detect_language` (lines 129-150): on a
response with status exactly 200, extract the provider's language code and
map it to the first registry entry whose `azure_code` equals it; with no
matching entry the raw provider code is returned unchanged.  Any raised
exception or non-200 status yields None. -/
def Azure_detect_language (net : CallOutcome) (_text : String) : Option String :=
  match net with
  | .raised => none
  | .ok status payloadText =>
    if status = 200 then
      match payloadText with
      | some detected =>
        match LANGUAGES.find? (fun p => p.2.azure_code == detected) with
        | some p => some p.1
        | none => some detected
      | none => none
    else none

-- ==================== Recipient resolution (src/main.py) ====================

/-- A channel participant as delivered by the gateway: identity, bot flag,
role names, stored language-preference list (if any), read permission on
the channel, and offline presence. -/
structure Member where
  id : Nat
  bot : Bool
  roles : List String
  prefLangs : Option (List String)
  canRead : Bool
  offline : Bool
deriving DecidableEq

/-- Model of python `str.lower()` over the character list (faithful for
the ASCII role and language names this program compares). -/
def pyLower (s : String) : String := String.mk (s.toList.map Char.toLower)

/-- Model of python `str.lower().strip()`: lowercase every character, then
strip leading and trailing whitespace. -/
def pyLowerStrip (s : String) : String :=
  String.mk ((((s.toList.map Char.toLower).dropWhile Char.isWhitespace).reverse.dropWhile
    Char.isWhitespace).reverse)

/-- src/main.py `TranslationHandler.get_user_languages` (lines 277-293):
the union of the stored preference list and every registry code one of the
member's role names (lowercased and stripped) equals — either the
language's display name lowercased or its code. -/
def get_user_languages (m : Member) : List String :=
  let languages := pySetUnion [] (m.prefLangs.getD [])
  m.roles.foldl (fun acc role =>
    LANGUAGES.foldl (fun acc2 p =>
      if pyLowerStrip role = pyLower p.2.name ∨ pyLowerStrip role = p.1
      then pySetAdd acc2 p.1 else acc2) acc) languages

/-- src/main.py `TranslationHandler.get_target_users` (lines 295-324):
skip bots, the author, members without read permission and — when the
server's online-only setting is on — offline members; a remaining member
with a non-empty language set not containing the source language is
retained together with that full set. -/
def target_entry (author_id : Nat) (online_only : Bool) (source_lang : String)
    (member : Member) : Option (Member × List String) :=
  if member.bot = true ∨ member.id = author_id then none
  else if member.canRead = false then none
  else if online_only = true ∧ member.offline = true then none
  else if get_user_languages member ≠ [] ∧ source_lang ∉ get_user_languages member
  then some (member, get_user_languages member)
  else none

def get_target_users (author_id : Nat) (online_only : Bool)
    (members : List Member) (source_lang : String) :
    List (Member × List String) :=
  members.filterMap (target_entry author_id online_only source_lang)

/-- src/main.py `on_message` lines 544-546: the global set of target
languages is the union of the language sets of all selected members. -/
def collect_target_langs (targets : List (Member × List String)) : List String :=
  targets.foldl (fun acc p => pySetUnion acc p.2) []

-- ==================== Caches: capacity model (src/main.py) ====================

/-- src/main.py `TranslationBot.cleanup_cache` body for one adapter (lines
256-258): when the cache holds more than 1000 entries it is replaced by
its last 500 entries (`dict(list(translator.cache.items())[-500:])`);
this task runs hourly, not on each insertion. -/
def cleanup_cache (cache : List (String × String)) : List (String × String) :=
  if 1000 < cache.length then cache.drop (cache.length - 500) else cache

/-- The text of the `n`-th insertion used to exhibit unbounded growth:
`n` copies of the character `a` (pairwise distinct, so pairwise-distinct
cache keys). -/
def natText (n : Nat) : String := String.mk (List.replicate n 'a')

/-- The main.py DeepL adapter's cache after `n` successful translate calls
(status 200) on the pairwise-distinct texts `natText 0 .. natText (n-1)`,
target `en`, no source language — a plain sequence of insertions with no
intervening hourly cleanup. -/
def mainInsertMany : Nat → List (String × String)
  | 0 => []
  | n + 1 =>
    match DeepL_translate (.ok 200 (some "t")) (mainInsertMany n) (natText n) "en" none with
    | .ok out => out.cache
    | .error _ => mainInsertMany n

-- ==================== Event handlers (src/main.py TranslationEvents) ====================

/-- Model of python `str.strip()` (whitespace strip), used by the
on_message blank-content guard. -/
def pyStrip (s : String) : String :=
  String.mk (((s.toList.dropWhile Char.isWhitespace).reverse.dropWhile
    Char.isWhitespace).reverse)

/-- `processing.add(id)` on the python set of in-flight message ids. -/
def pyAddNat (l : List Nat) (x : Nat) : List Nat := if x ∈ l then l else l ++ [x]

/-- `processing.discard(id)`. -/
def pyDiscardNat (l : List Nat) (x : Nat) : List Nat := l.filter (fun y => y != x)

/-- An inbound message event as delivered by the gateway. -/
structure Msg where
  id : Nat
  author_bot : Bool
  author_id : Nat
  content : String
  has_guild : Bool
deriving DecidableEq

/-- The retained reply context stored in `bot.reaction_messages` (the
spec's PendingReplyContext): the original message (kept as id and
content), the translations computed for the reply, and the detected
source language. -/
structure ReplyCtx where
  original_id : Nat
  original_content : String
  translations : List (String × String)
  source_lang : String
deriving DecidableEq

/-- Event-handler state: the in-memory de-duplication set and the
retained reply contexts. -/
structure BotState where
  processing : List Nat
  reaction_messages : List (Nat × ReplyCtx)
deriving DecidableEq

/-- Environment of one on_message run: the server settings consulted, the
channel's participants, and the outcomes the awaited calls would produce
(detection result, configured adapters, the id the posted reply gets). -/
structure Env where
  auto_translate : Bool
  flag_reactions : Bool
  online_only : Bool
  members : List Member
  detect : Option String
  deepl : Option (String → String → Option String → Option String)
  azure : Option (String → String → Option String → Option String)
  reply_id : Nat

/-- Externally visible actions of one on_message run, in order. -/
inductive BotAction where
  | postReply (translations : List (String × String))
  | addReaction (flag : String)
  | sleep (secs : Nat)
  | removeProcessing (id : Nat)
deriving DecidableEq

/-- Does an action post the translated reply? -/
def isReply : BotAction → Bool
  | .postReply _ => true
  | _ => false

/-- src/main.py on_message lines 549-554: one `translate_message` call per
collected target language (the source language is skipped), keeping the
successful results in order. -/
def compute_translations
    (deepl azure : Option (String → String → Option String → Option String))
    (content source_lang : String) (target_langs : List String) :
    List (String × String) :=
  target_langs.foldl (fun acc lang =>
    if lang ≠ source_lang then
      match (translate_message deepl azure content lang (some source_lang)).1 with
      | some t => acc ++ [(lang, t)]
      | none => acc
    else acc) []

/-- The try-block body of src/main.py `TranslationEvents.on_message`
(lines 530-575): detect the source language, resolve recipients, collect
target languages, translate each, and if anything translated post one
reply; when the server's flag_reactions setting is enabled, retain the
reply context under the reply's id and attempt one reaction per
translated language (each attempt's failure is swallowed). -/
def on_message_body (st : BotState) (env : Env) (msg : Msg) : BotState × List BotAction :=
  match env.detect with
  | none => (st, [])
  | some source_lang =>
    if get_target_users msg.author_id env.online_only env.members source_lang = [] then
      (st, [])
    else
      if compute_translations env.deepl env.azure msg.content source_lang
          (collect_target_langs (get_target_users msg.author_id env.online_only
            env.members source_lang)) = [] then
        (st, [])
      else
        if env.flag_reactions = true then
          ({ st with reaction_messages := (pySet st.reaction_messages env.reply_id
              ⟨msg.id, msg.content,
                compute_translations env.deepl env.azure msg.content source_lang
                  (collect_target_langs (get_target_users msg.author_id env.online_only
                    env.members source_lang)), source_lang⟩) },
           BotAction.postReply (compute_translations env.deepl env.azure msg.content source_lang
              (collect_target_langs (get_target_users msg.author_id env.online_only
                env.members source_lang))) ::
             (compute_translations env.deepl env.azure msg.content source_lang
                (collect_target_langs (get_target_users msg.author_id env.online_only
                  env.members source_lang))).filterMap
               (fun p => (LANGUAGES_get p.1).map (fun c => BotAction.addReaction c.flag)))
        else
          (st, [BotAction.postReply (compute_translations env.deepl env.azure msg.content
            source_lang (collect_target_langs (get_target_users msg.author_id
              env.online_only env.members source_lang)))])

/-- src/main.py `TranslationEvents.on_message` (lines 511-582): early
returns for bot authors, blank content, DMs, disabled auto-translate and
duplicate events; otherwise the message id enters the processing set
synchronously (before the first await), the try-block body runs, and the
finally block sleeps five seconds before discarding the id. -/
def on_message (st : BotState) (env : Env) (msg : Msg) : BotState × List BotAction :=
  if msg.author_bot = true ∨ pyStrip msg.content = "" then (st, [])
  else if msg.has_guild = false then (st, [])
  else if env.auto_translate = false then (st, [])
  else if msg.id ∈ st.processing then (st, [])
  else
    ({ (on_message_body { st with processing := pyAddNat st.processing msg.id } env msg).1
        with processing :=
          (pyDiscardNat (on_message_body { st with
            processing := pyAddNat st.processing msg.id } env msg).1.processing msg.id) },
     (on_message_body { st with processing := pyAddNat st.processing msg.id } env msg).2 ++
       [BotAction.sleep 5, BotAction.removeProcessing msg.id])

/-- A reaction event as delivered by the gateway. -/
structure Payload where
  user_id : Nat
  message_id : Nat
  emoji : String
deriving DecidableEq

/-- Outcome of attempting `user.send(...)`: delivered, or the platform
forbids the private message (discord.Forbidden, the only exception the
handler catches). -/
inductive DMOutcome where
  | delivered : DMOutcome
  | forbidden : DMOutcome
deriving DecidableEq

/-- Observable outcome of one `on_raw_reaction_add` run: how many
on-demand pipeline invocations were made, the content of the DM whose
send was attempted (none when no send was attempted), and the content
actually delivered (none when nothing was delivered — in particular when
the platform forbade the private message, which the handler swallows). -/
structure ReactOut where
  pipeline_calls : Nat
  dm_attempt : Option String
  dm_delivered : Option String
deriving DecidableEq

/-- src/main.py `TranslationEvents.on_raw_reaction_add` (lines 584-632):
ignore the bot's own reactions, messages without a retained context and
unrecognized glyphs; reuse a stored (truthy) translation or compute one
on demand from the original text and recorded source language; send the
DM when the user is resolvable, swallowing discord.Forbidden. -/
def on_raw_reaction_add (bot_user_id : Nat) (reaction_messages : List (Nat × ReplyCtx))
    (deepl azure : Option (String → String → Option String → Option String))
    (user_found : Bool) (dm : DMOutcome) (payload : Payload) : ReactOut :=
  if payload.user_id = bot_user_id then ⟨0, none, none⟩
  else
    match pyGet reaction_messages payload.message_id with
    | none => ⟨0, none, none⟩
    | some msg_data =>
      match LANGUAGES.find? (fun p => payload.emoji == p.2.flag) with
      | none => ⟨0, none, none⟩
      | some p =>
        match
          (match pyGet msg_data.translations p.1 with
           | some t =>
             if t = "" then
               ((translate_message deepl azure msg_data.original_content p.1
                 (some msg_data.source_lang)).1, 1)
             else ((some t : Option String), 0)
           | none =>
             ((translate_message deepl azure msg_data.original_content p.1
               (some msg_data.source_lang)).1, 1)) with
        | (none, calls) => ⟨calls, none, none⟩
        | (some t, calls) =>
          if user_found = true then
            match dm with
            | .delivered => ⟨calls, some t, some t⟩
            | .forbidden => ⟨calls, some t, none⟩
          else ⟨calls, none, none⟩

-- ==================== Set-model membership lemmas ====================

theorem mem_pySetAdd {l : List String} {x y : String} :
    y ∈ pySetAdd l x ↔ y ∈ l ∨ y = x := by
  unfold pySetAdd
  by_cases h : x ∈ l
  · simp only [if_pos h]
    constructor
    · exact fun hy => Or.inl hy
    · rintro (hy | rfl)
      · exact hy
      · exact h
  · simp [if_neg h]

theorem mem_pySetUnion {l xs : List String} {y : String} :
    y ∈ pySetUnion l xs ↔ y ∈ l ∨ y ∈ xs := by
  induction xs generalizing l with
  | nil => simp [pySetUnion]
  | cons x xs ih =>
    unfold pySetUnion at ih ⊢
    simp only [List.foldl_cons]
    rw [ih, mem_pySetAdd]
    simp only [List.mem_cons]
    tauto

theorem mem_collect_target_langs {targets : List (Member × List String)} {y : String} :
    y ∈ collect_target_langs targets ↔ ∃ p ∈ targets, y ∈ p.2 := by
  suffices h : ∀ (acc : List String),
      y ∈ targets.foldl (fun acc p => pySetUnion acc p.2) acc ↔
        y ∈ acc ∨ ∃ p ∈ targets, y ∈ p.2 by
    have := h []
    unfold collect_target_langs
    rw [this]
    simp
  induction targets with
  | nil => simp
  | cons t ts ih =>
    intro acc
    simp only [List.foldl_cons]
    rw [ih, mem_pySetUnion]
    simp only [List.mem_cons]
    constructor
    · rintro ((h | h) | ⟨p, hp, hy⟩)
      · exact Or.inl h
      · exact Or.inr ⟨t, Or.inl rfl, h⟩
      · exact Or.inr ⟨p, Or.inr hp, hy⟩
    · rintro (h | ⟨p, hp | hp, hy⟩)
      · exact Or.inl (Or.inl h)
      · exact Or.inl (Or.inr (hp ▸ hy))
      · exact Or.inr ⟨p, hp, hy⟩

theorem target_entry_eq_some {author_id : Nat} {online_only : Bool}
    {source_lang : String} {m : Member} {q : Member × List String} :
    target_entry author_id online_only source_lang m = some q ↔
      (m.bot = false ∧ m.id ≠ author_id ∧ m.canRead = true ∧
       ¬(online_only = true ∧ m.offline = true) ∧
       get_user_languages m ≠ [] ∧ source_lang ∉ get_user_languages m ∧
       q = (m, get_user_languages m)) := by
  unfold target_entry
  split_ifs with h1 h2 h3 h4
  · simp only [false_iff]
    rintro ⟨hb, hid, -⟩
    rcases h1 with h1 | h1
    · exact absurd h1 (by simp [hb])
    · exact hid h1
  · simp only [false_iff]
    rintro ⟨-, -, hr, -⟩
    rw [hr] at h2
    exact Bool.true_eq_false.mp h2
  · simp only [false_iff]
    rintro ⟨-, -, -, ho, -⟩
    exact ho h3
  · constructor
    · rintro h
      refine ⟨?_, ?_, ?_, h3, h4.1, h4.2, (Option.some_inj.mp h).symm⟩
      · cases hb : m.bot with
        | false => rfl
        | true => exact absurd (Or.inl hb) h1
      · exact fun hid => h1 (Or.inr hid)
      · cases hr : m.canRead with
        | false => exact absurd hr h2
        | true => rfl
    · rintro ⟨-, -, -, -, -, -, hq⟩
      rw [hq]
  · simp only [false_iff]
    rintro ⟨-, -, -, -, hne, hnm, -⟩
    exact h4 ⟨hne, hnm⟩

theorem target_entry_eq_none_of_source_mem {author_id : Nat} {online_only : Bool}
    {source_lang : String} {m : Member}
    (h : source_lang ∈ get_user_languages m) :
    target_entry author_id online_only source_lang m = none := by
  unfold target_entry
  split_ifs with h1 h2 h3 h4
  · rfl
  · rfl
  · rfl
  · exact absurd h h4.2
  · rfl

/-- **C2.** For a detected source language `s` and the main.py recipient
resolver: a participant whose language set contains `s` (in particular one
whose set is exactly `{s}`) is never selected as a target and contributes
no languages — the resolver's output over a participant list containing
that member equals its output with the member removed; and a participant
passing the bot/author/permission/online filters whose language set is
exactly `{a, b}` with `s ∉ {a, b}` is selected with its full set, and both
`a` and `b` enter the global target-language set collected by on_message. -/
theorem claim_C2 (author_id : Nat) (online_only : Bool) (s : String) (m : Member) :
    (s ∈ get_user_languages m →
      (∀ members, ∀ p ∈ get_target_users author_id online_only members s, p.1 ≠ m) ∧
      (∀ ms1 ms2, get_target_users author_id online_only (ms1 ++ m :: ms2) s =
        get_target_users author_id online_only (ms1 ++ ms2) s)) ∧
    (∀ a b members, (∀ x, x ∈ get_user_languages m ↔ (x = a ∨ x = b)) →
      s ≠ a → s ≠ b →
      m.bot = false → m.id ≠ author_id → m.canRead = true →
      ¬(online_only = true ∧ m.offline = true) → m ∈ members →
      (m, get_user_languages m) ∈ get_target_users author_id online_only members s ∧
      a ∈ collect_target_langs (get_target_users author_id online_only members s) ∧
      b ∈ collect_target_langs (get_target_users author_id online_only members s)) := by
  constructor
  · intro hs
    constructor
    · intro members p hp hpm
      obtain ⟨x, hx, hfx⟩ := List.mem_filterMap.mp hp
      obtain ⟨-, -, -, -, -, hnm, hq⟩ := target_entry_eq_some.mp hfx
      rw [hq] at hpm
      simp only at hpm
      rw [hpm] at hnm
      exact hnm hs
    · intro ms1 ms2
      unfold get_target_users
      rw [List.filterMap_append, List.filterMap_append, List.filterMap_cons,
        target_entry_eq_none_of_source_mem hs]
  · intro a b members hab hsa hsb hbot hid hread honline hmem
    have hs : s ∉ get_user_languages m := by
      intro hc
      rcases (hab s).mp hc with h | h
      · exact hsa h
      · exact hsb h
    have hne : get_user_languages m ≠ [] :=
      List.ne_nil_of_mem ((hab a).mpr (Or.inl rfl))
    have hsel : (m, get_user_languages m) ∈
        get_target_users author_id online_only members s :=
      List.mem_filterMap.mpr ⟨m, hmem,
        target_entry_eq_some.mpr ⟨hbot, hid, hread, honline, hne, hs, rfl⟩⟩
    refine ⟨hsel, ?_, ?_⟩
    · exact mem_collect_target_langs.mpr
        ⟨(m, get_user_languages m), hsel, (hab a).mpr (Or.inl rfl)⟩
    · exact mem_collect_target_langs.mpr
        ⟨(m, get_user_languages m), hsel, (hab b).mpr (Or.inr rfl)⟩

/-- Witness for C2 at concrete inputs: source `en`; a member `m1` whose
language set is exactly `{en}` (English role) is never selected and drops
out of the resolver's output; a member `m2` with roles French and German
(set `{fr, de}`) is selected and both `fr` and `de` enter the global
target-language set. -/
theorem claim_C2_witness :
    (∀ p ∈ get_target_users 1 true [⟨2, false, ["English"], none, true, false⟩] "en",
        p.1 ≠ ⟨2, false, ["English"], none, true, false⟩) ∧
    (get_target_users 1 true [⟨2, false, ["English"], none, true, false⟩,
        ⟨3, false, ["French", "German"], none, true, false⟩] "en" =
      get_target_users 1 true [⟨3, false, ["French", "German"], none, true, false⟩] "en") ∧
    ((⟨3, false, ["French", "German"], none, true, false⟩ : Member),
        get_user_languages ⟨3, false, ["French", "German"], none, true, false⟩) ∈
      get_target_users 1 true [⟨3, false, ["French", "German"], none, true, false⟩] "en" ∧
    "fr" ∈ collect_target_langs (get_target_users 1 true
        [⟨3, false, ["French", "German"], none, true, false⟩] "en") ∧
    "de" ∈ collect_target_langs (get_target_users 1 true
        [⟨3, false, ["French", "German"], none, true, false⟩] "en") := by
  have h1 := (claim_C2 1 true "en" ⟨2, false, ["English"], none, true, false⟩).1
    (by decide)
  have h2 := (claim_C2 1 true "en" ⟨3, false, ["French", "German"], none, true, false⟩).2
    "fr" "de" [⟨3, false, ["French", "German"], none, true, false⟩]
    (by
      intro x
      rw [show get_user_languages ⟨3, false, ["French", "German"], none, true, false⟩ =
        ["fr", "de"] from rfl]
      simp)
    (by decide) (by decide) rfl (by decide) rfl (by decide)
    (List.mem_singleton.mpr rfl)
  exact ⟨h1.1 _, h1.2 [] [⟨3, false, ["French", "German"], none, true, false⟩],
    h2.1, h2.2.1, h2.2.2⟩

-- ==================== C1: provider fallback ordering ====================

/-- **C1 counterexample.** In src/main_oracle.py `auto_translate` (lines
310-314), with both providers configured, DeepL yielding no result for the
language, and Azure able to yield a result, the selected provider is DeepL
alone: the language's translation is absent and the fallback is never
attempted — refuting the claim that the fallback is attempted whenever the
primary yields no result. -/
theorem claim_C1_counterexample :
    Oracle_auto_pick (some (fun _ _ _ => none)) (some (fun _ _ _ => some "Hola"))
        "Hello everyone" "es" (some "en") = (none, ["deepl"]) ∧
    (fun (_ _ : String) (_ : Option String) => some ("Hola" : String)) "Hello everyone" "es"
        (some "en") = some "Hola" ∧
    "azure" ∉ (Oracle_auto_pick (some (fun _ _ _ => none)) (some (fun _ _ _ => some "Hola"))
        "Hello everyone" "es" (some "en")).2 := by
  refine ⟨rfl, rfl, ?_⟩
  intro h
  rw [show (Oracle_auto_pick (some (fun _ _ _ => none)) (some (fun _ _ _ => some "Hola"))
    "Hello everyone" "es" (some "en")).2 = ["deepl"] from rfl] at h
  simp at h

/-- **C1 (amended).** In src/main.py `translate_message`, with both
providers configured, DeepL is tried first and Azure is attempted iff
DeepL yields no result; the call yields no result iff both providers yield
none (and then the language is simply absent — the orchestration returns
None rather than raising).  In src/main_oracle.py `auto_translate`, the
selection `translators.get("deepl") or translators.get("azure")` consults
only DeepL whenever DeepL is configured: Azure is never attempted as a
fallback after a DeepL failure. -/
theorem claim_C1 (dp az : String → String → Option String → Option String)
    (text target_lang : String) (source_lang : Option String) :
    (translate_message (some dp) (some az) text target_lang source_lang =
      (match dp text target_lang source_lang with
       | some t => (some t, ["deepl"])
       | none => (az text target_lang source_lang, ["deepl", "azure"]))) ∧
    ("azure" ∈ (translate_message (some dp) (some az) text target_lang source_lang).2 ↔
      dp text target_lang source_lang = none) ∧
    ((translate_message (some dp) (some az) text target_lang source_lang).1 = none ↔
      (dp text target_lang source_lang = none ∧ az text target_lang source_lang = none)) ∧
    (Oracle_auto_pick (some dp) (some az) text target_lang source_lang =
      (dp text target_lang source_lang, ["deepl"])) := by
  have hmain : translate_message (some dp) (some az) text target_lang source_lang =
      (match dp text target_lang source_lang with
       | some t => (some t, ["deepl"])
       | none => (az text target_lang source_lang, ["deepl", "azure"])) := by
    cases hdp : dp text target_lang source_lang with
    | some t => simp [translate_message, hdp]
    | none =>
      cases haz : az text target_lang source_lang with
      | some u => simp [translate_message, hdp, haz]
      | none => simp [translate_message, hdp, haz]
  refine ⟨hmain, ?_, ?_, rfl⟩
  · rw [hmain]
    cases hdp : dp text target_lang source_lang with
    | some t => simp
    | none => simp
  · rw [hmain]
    cases hdp : dp text target_lang source_lang with
    | some t => simp
    | none =>
      cases haz : az text target_lang source_lang with
      | some u => simp [haz]
      | none => simp [haz]

-- ==================== C3: soft failure of provider translate ====================

/-- **C3 counterexample.** In src/main.py, `DeepLTranslator.translate`
raises a KeyError to its caller when the optional source language is a
code outside the registry (line 109 runs outside the try block) — and
such a code is reachable: `detect_language` passes unrecognized provider
codes (here "sr") through unchanged. -/
theorem claim_C3_counterexample :
    Azure_detect_language (.ok 200 (some "sr")) "Zdravo svete" = some "sr" ∧
    DeepL_translate (.ok 200 (some "x")) [] "Zdravo svete" "en" (some "sr") =
      .error (.keyError "sr") := ⟨rfl, rfl⟩

/-- **C3 (amended).** Provided the optional source language, when present,
is a registered code, src/main.py `DeepLTranslator.translate` never raises:
it returns a plain optional result, and on a cache miss any transport
error / timeout / parse failure (`raised`) or any non-200 status yields
None.  src/main_oracle.py `DeepLTranslator._do_translate` never raises for
any input (the source language is unused) and likewise yields None on a
raised exception or non-200 status.  With an unregistered source language
the main.py adapter instead raises a KeyError (see the counterexample). -/
theorem claim_C3 (net : CallOutcome) (cache : List (String × String))
    (text target_lang : String) (source_lang : Option String)
    (hsrc : ∀ s, source_lang = some s → (LANGUAGES_get s).isSome = true) :
    (∃ out, DeepL_translate net cache text target_lang source_lang = .ok out ∧
      (pyGet cache (deepl_cache_key text target_lang source_lang) = none →
        (net = .raised → out.result = none) ∧
        (∀ status payloadText, net = .ok status payloadText → status ≠ 200 →
          out.result = none))) ∧
    (Oracle_DeepL_do .raised text target_lang source_lang = none) ∧
    (∀ status payloadText, status ≠ 200 →
      Oracle_DeepL_do (.ok status payloadText) text target_lang source_lang = none) := by
  refine ⟨?_, ?_, ?_⟩
  · have htry : ∀ ck, (net = .raised → (http_try net cache ck).result = none) ∧
        (∀ status payloadText, net = .ok status payloadText → status ≠ 200 →
          (http_try net cache ck).result = none) := by
      intro ck
      constructor
      · rintro rfl
        rfl
      · rintro status payloadText rfl hs
        show (if status = 200 then _ else TranslateOut.mk none cache 1).result = none
        rw [if_neg hs]
    cases hsl : source_lang with
    | none =>
      cases hget : pyGet cache (deepl_cache_key text target_lang none) with
      | some v =>
        refine ⟨⟨some v, cache, 0⟩, ?_, fun hmiss => Option.noConfusion hmiss⟩
        simp only [DeepL_translate, hget]
      | none =>
        cases htgt : LANGUAGES_get target_lang with
        | none =>
          refine ⟨⟨none, cache, 0⟩, ?_, fun _ => ⟨fun _ => rfl, fun _ _ _ _ => rfl⟩⟩
          simp only [DeepL_translate, hget, htgt]
        | some cfg =>
          refine ⟨http_try net cache (deepl_cache_key text target_lang none), ?_,
            fun _ => htry _⟩
          simp only [DeepL_translate, hget, htgt]
    | some src =>
      have hreg := hsrc src hsl
      cases hget : pyGet cache (deepl_cache_key text target_lang (some src)) with
      | some v =>
        refine ⟨⟨some v, cache, 0⟩, ?_, fun hmiss => Option.noConfusion hmiss⟩
        simp only [DeepL_translate, hget]
      | none =>
        cases htgt : LANGUAGES_get target_lang with
        | none =>
          refine ⟨⟨none, cache, 0⟩, ?_, fun _ => ⟨fun _ => rfl, fun _ _ _ _ => rfl⟩⟩
          simp only [DeepL_translate, hget, htgt]
        | some cfg =>
          cases hregc : LANGUAGES_get src with
          | none =>
            rw [hregc] at hreg
            cases hreg
          | some cfg2 =>
            refine ⟨http_try net cache (deepl_cache_key text target_lang (some src)), ?_,
              fun _ => htry _⟩
            simp only [DeepL_translate, hget, htgt, hregc]
  · unfold Oracle_DeepL_do
    cases pyGet ORACLE_LANGUAGES target_lang <;> rfl
  · intro status payloadText hs
    unfold Oracle_DeepL_do
    cases pyGet ORACLE_LANGUAGES target_lang with
    | none => rfl
    | some cfg =>
      show (if status = 200 then payloadText else none) = none
      rw [if_neg hs]

/-- Witness for C3 at concrete inputs: a registered source language `en`
and a raised transport error yield an ordinary None (no exception) from
the main.py DeepL adapter, and None from the oracle adapter for both a
raised error and any non-200 status. -/
theorem claim_C3_witness :
    (∃ out, DeepL_translate .raised [] "Hello" "fr" (some "en") = .ok out ∧
      (pyGet ([] : List (String × String)) (deepl_cache_key "Hello" "fr" (some "en")) = none →
        (CallOutcome.raised = .raised → out.result = none) ∧
        (∀ status payloadText, CallOutcome.raised = .ok status payloadText →
          status ≠ 200 → out.result = none))) ∧
    (Oracle_DeepL_do .raised "Hello" "fr" (some "en") = none) ∧
    (∀ status payloadText, status ≠ 200 →
      Oracle_DeepL_do (.ok status payloadText) "Hello" "fr" (some "en") = none) :=
  claim_C3 .raised [] "Hello" "fr" (some "en")
    (by rintro s hs; cases Option.some_inj.mp hs; rfl)

-- ==================== Assoc-list (python dict) lemmas ====================

theorem pyGet_pySet_self {α β : Type} [DecidableEq α] (l : List (α × β)) (k : α) (v : β) :
    pyGet (pySet l k v) k = some v := by
  induction l with
  | nil => simp [pySet, pyGet]
  | cons p rest ih =>
    by_cases h : p.1 = k
    · simp [pySet, h, pyGet]
    · simp [pySet, h, pyGet, ih]

theorem pyGet_eq_none_of_forall {α β : Type} [DecidableEq α] {l : List (α × β)} {k : α}
    (h : ∀ p ∈ l, p.1 ≠ k) : pyGet l k = none := by
  induction l with
  | nil => rfl
  | cons p rest ih =>
    simp only [pyGet, if_neg (h p (List.mem_cons_self p rest))]
    exact ih (fun q hq => h q (List.mem_cons_of_mem p hq))

theorem pySet_eq_append_of_none {α β : Type} [DecidableEq α] {l : List (α × β)} {k : α}
    (v : β) (h : pyGet l k = none) : pySet l k v = l ++ [(k, v)] := by
  induction l with
  | nil => rfl
  | cons p rest ih =>
    by_cases hp : p.1 = k
    · rw [pyGet, if_pos hp] at h
      cases h
    · rw [pyGet, if_neg hp] at h
      rw [pySet, if_neg hp, ih h, List.cons_append]

theorem pySet_length_le {α β : Type} [DecidableEq α] (l : List (α × β)) (k : α) (v : β) :
    (pySet l k v).length ≤ l.length + 1 := by
  induction l with
  | nil => simp [pySet]
  | cons p rest ih =>
    by_cases h : p.1 = k
    · simp [pySet, h]
    · simp only [pySet, if_neg h, List.length_cons]
      exact Nat.succ_le_succ ih

-- ==================== C4: cache capacity ====================

theorem string_length_append (a b : String) : (a ++ b).length = a.length + b.length := by
  show (a.data ++ b.data).length = a.data.length + b.data.length
  exact List.length_append a.data b.data

theorem natText_length (n : Nat) : (natText n).length = n := by
  show (List.replicate n 'a').length = n
  exact List.length_replicate n 'a' 

theorem deepl_key_natText_length (n : Nat) :
    (deepl_cache_key (natText n) "en" none).length = n + 14 := by
  show ((((("deepl_" ++ natText n) ++ "_") ++ "en") ++ "_") ++ "None").length = n + 14
  rw [string_length_append, string_length_append, string_length_append,
    string_length_append, string_length_append, natText_length,
    show ("deepl_" : String).length = 6 from rfl, show ("_" : String).length = 1 from rfl,
    show ("en" : String).length = 2 from rfl, show ("None" : String).length = 4 from rfl]
  omega

theorem deepl_key_natText_ne {i j : Nat} (h : i ≠ j) :
    deepl_cache_key (natText i) "en" none ≠ deepl_cache_key (natText j) "en" none := by
  intro hc
  apply h
  have := congrArg String.length hc
  rw [deepl_key_natText_length, deepl_key_natText_length] at this
  omega

theorem mainInsertMany_eq (n : Nat) :
    mainInsertMany n =
      (List.range n).map (fun i => (deepl_cache_key (natText i) "en" none, "t")) := by
  induction n with
  | zero => rfl
  | succ n ih =>
    have hmiss : pyGet (mainInsertMany n) (deepl_cache_key (natText n) "en" none) = none := by
      rw [ih]
      apply pyGet_eq_none_of_forall
      intro p hp
      obtain ⟨i, hi, rfl⟩ := List.mem_map.mp hp
      exact deepl_key_natText_ne (Nat.ne_of_lt (List.mem_range.mp hi))
    have hstep : DeepL_translate (.ok 200 (some "t")) (mainInsertMany n) (natText n) "en" none =
        .ok ⟨some "t", pySet (mainInsertMany n) (deepl_cache_key (natText n) "en" none) "t", 1⟩ := by
      simp only [DeepL_translate, hmiss]
      rfl
    show (match DeepL_translate (.ok 200 (some "t")) (mainInsertMany n) (natText n) "en" none with
      | .ok out => out.cache
      | .error _ => mainInsertMany n) = _
    rw [hstep]
    show pySet (mainInsertMany n) (deepl_cache_key (natText n) "en" none) "t" = _
    rw [pySet_eq_append_of_none _ hmiss, ih, List.range_succ, List.map_append]
    rfl

/-- **C4 counterexample.** In src/main.py, the DeepL adapter's `translate`
inserts into its cache unconditionally (line 116) and the capacity bound
(1000, src/main.py line 257) is only restored by an hourly cleanup task:
after 1001 successful translate calls on distinct texts — a sequence of
insertions with no cleanup in between — the cache holds 1001 entries,
exceeding the configured capacity. -/
theorem claim_C4_counterexample :
    (mainInsertMany 1001).length = 1001 ∧ 1000 < (mainInsertMany 1001).length := by
  have h : (mainInsertMany 1001).length = 1001 := by
    rw [mainInsertMany_eq, List.length_map, List.length_range]
  exact ⟨h, by rw [h]; omega⟩

/-- **C4 (amended).** In src/main_oracle.py the insertion itself is
guarded (`len(self.cache) < CACHE_SIZE`), so any sequence of translate
calls preserves the capacity bound of 5000 entries.  In src/main.py the
insertion is unguarded and the bound can be exceeded between cleanups (see
the counterexample); the hourly `cleanup_cache`, when the cache exceeds
1000 entries, keeps exactly the newest 500 entries — half the capacity,
not half of the current entries — and drops all older ones. -/
theorem claim_C4 (cache : List (String × String)) :
    (∀ doRes text target_lang source_lang,
      cache.length ≤ ORACLE_CACHE_SIZE →
      (Oracle_service_translate doRes cache text target_lang source_lang).cache.length ≤
        ORACLE_CACHE_SIZE) ∧
    ((cleanup_cache cache).length ≤ 1000 ∧
      (1000 < cache.length →
        (cleanup_cache cache).length = 500 ∧ (cleanup_cache cache).IsSuffix cache)) := by
  constructor
  · intro doRes text target_lang source_lang hle
    cases hget : pyGet cache (oracle_cache_key text target_lang source_lang) with
    | some v =>
      simp only [Oracle_service_translate, hget]
      exact hle
    | none =>
      cases doRes with
      | none =>
        simp only [Oracle_service_translate, hget]
        exact hle
      | some r =>
        by_cases hlt : cache.length < ORACLE_CACHE_SIZE
        · simp only [Oracle_service_translate, hget, if_pos hlt]
          exact le_trans (pySet_length_le cache _ r) hlt
        · simp only [Oracle_service_translate, hget, if_neg hlt]
          exact hle
  · constructor
    · unfold cleanup_cache
      by_cases h : 1000 < cache.length
      · rw [if_pos h, List.length_drop]
        omega
      · rw [if_neg h]
        omega
    · intro h
      unfold cleanup_cache
      rw [if_pos h]
      refine ⟨?_, List.drop_suffix _ _⟩
      rw [List.length_drop]
      omega

/-- Witness for C4 (amended) at a concrete cache of 1001 identical
entries: the oracle translate keeps it within 5000, and the main.py
cleanup reduces it to its newest 500 entries. -/
theorem claim_C4_witness :
    ((Oracle_service_translate none (List.replicate 1001 ("k", "v")) "x" "fr" none).cache.length ≤
      ORACLE_CACHE_SIZE) ∧
    (cleanup_cache (List.replicate 1001 ("k", "v"))).length = 500 ∧
    (cleanup_cache (List.replicate 1001 ("k", "v"))).IsSuffix
      (List.replicate 1001 ("k", "v")) := by
  have h := claim_C4 (List.replicate 1001 ("k", "v"))
  have hlen : (List.replicate 1001 (("k", "v") : String × String)).length = 1001 :=
    List.length_replicate 1001 _
  have h2 := h.2.2 (by rw [hlen]; omega)
  exact ⟨h.1 none "x" "fr" none (by rw [hlen]; norm_num [ORACLE_CACHE_SIZE]), h2.1, h2.2⟩

-- ==================== C5: cache keys and truncation ====================

/-- **C5 counterexample.** In src/main.py the DeepL adapter's cache key
uses the FULL text (no 50-character truncation): for two 51-character
texts that agree on their first 50 characters and differ at the 51st, a
successful call on the first does not serve the second — the second call
issues its own outbound call and a second cache entry is created, so the
two texts do not share one cache entry. -/
theorem claim_C5_counterexample :
    pySlice50 "aaaaaaaaaaaaaaaaaaaaaaaaaaaaaaaaaaaaaaaaaaaaaaaaaaa" =
      pySlice50 "aaaaaaaaaaaaaaaaaaaaaaaaaaaaaaaaaaaaaaaaaaaaaaaaaab" ∧
    (∃ out1 out2,
      DeepL_translate (.ok 200 (some "v1")) []
        "aaaaaaaaaaaaaaaaaaaaaaaaaaaaaaaaaaaaaaaaaaaaaaaaaaa" "en" none = .ok out1 ∧
      DeepL_translate (.ok 200 (some "v2")) out1.cache
        "aaaaaaaaaaaaaaaaaaaaaaaaaaaaaaaaaaaaaaaaaaaaaaaaaab" "en" none = .ok out2 ∧
      out2.outCalls = 1 ∧ out2.cache.length = 2) :=
  ⟨rfl, ⟨⟨some "v1", [(deepl_cache_key
      "aaaaaaaaaaaaaaaaaaaaaaaaaaaaaaaaaaaaaaaaaaaaaaaaaaa" "en" none, "v1")], 1⟩,
    ⟨some "v2", [(deepl_cache_key
      "aaaaaaaaaaaaaaaaaaaaaaaaaaaaaaaaaaaaaaaaaaaaaaaaaaa" "en" none, "v1"),
      (deepl_cache_key
      "aaaaaaaaaaaaaaaaaaaaaaaaaaaaaaaaaaaaaaaaaaaaaaaaaab" "en" none, "v2")], 1⟩,
    rfl, rfl, rfl, rfl⟩⟩

/-- **C5 (amended).** Only the src/main_oracle.py service consults and
writes its cache under a key built from the truncated text (first 50
characters), the target language and the source language: two texts
agreeing on their first 50 characters share one cache entry there, and a
miss stores the result under the truncated key.  In src/main.py the key
uses the full untruncated text (see the counterexample). -/
theorem claim_C5 (t1 t2 target_lang : String) (source_lang : Option String)
    (cache : List (String × String)) (v r : String) (doRes : Option String)
    (hslice : pySlice50 t1 = pySlice50 t2) :
    oracle_cache_key t1 target_lang source_lang =
      oracle_cache_key t2 target_lang source_lang ∧
    (pyGet cache (oracle_cache_key t1 target_lang source_lang) = some v →
      Oracle_service_translate doRes cache t2 target_lang source_lang = ⟨some v, cache, 0⟩) ∧
    (pyGet cache (oracle_cache_key t1 target_lang source_lang) = none →
      cache.length < ORACLE_CACHE_SIZE →
      Oracle_service_translate (some r) cache t1 target_lang source_lang =
        ⟨some r, pySet cache (oracle_cache_key t1 target_lang source_lang) r, 1⟩) := by
  have hkey : oracle_cache_key t1 target_lang source_lang =
      oracle_cache_key t2 target_lang source_lang := by
    unfold oracle_cache_key
    rw [hslice]
  refine ⟨hkey, ?_, ?_⟩
  · intro hhit
    rw [hkey] at hhit
    simp only [Oracle_service_translate, hhit]
  · intro hmiss hlt
    simp only [Oracle_service_translate, hmiss, if_pos hlt]

/-- Witness for C5 (amended): two concrete 51-character texts sharing the
first 50 characters share one oracle cache entry — the second call is a
hit with no outbound call — and a miss in an empty cache stores under the
truncated key. -/
theorem claim_C5_witness :
    Oracle_service_translate none
      [(oracle_cache_key "aaaaaaaaaaaaaaaaaaaaaaaaaaaaaaaaaaaaaaaaaaaaaaaaaaa" "fr" none,
        "Bonjour")]
      "aaaaaaaaaaaaaaaaaaaaaaaaaaaaaaaaaaaaaaaaaaaaaaaaaab" "fr" none =
      ⟨some "Bonjour",
        [(oracle_cache_key "aaaaaaaaaaaaaaaaaaaaaaaaaaaaaaaaaaaaaaaaaaaaaaaaaaa" "fr" none,
          "Bonjour")], 0⟩ ∧
    Oracle_service_translate (some "Bonjour") []
      "aaaaaaaaaaaaaaaaaaaaaaaaaaaaaaaaaaaaaaaaaaaaaaaaaaa" "fr" none =
      ⟨some "Bonjour",
        pySet [] (oracle_cache_key "aaaaaaaaaaaaaaaaaaaaaaaaaaaaaaaaaaaaaaaaaaaaaaaaaaa"
          "fr" none) "Bonjour", 1⟩ := by
  have h := claim_C5 "aaaaaaaaaaaaaaaaaaaaaaaaaaaaaaaaaaaaaaaaaaaaaaaaaaa"
    "aaaaaaaaaaaaaaaaaaaaaaaaaaaaaaaaaaaaaaaaaaaaaaaaaab" "fr" none
    [(oracle_cache_key "aaaaaaaaaaaaaaaaaaaaaaaaaaaaaaaaaaaaaaaaaaaaaaaaaaa" "fr" none,
      "Bonjour")] "Bonjour" "Bonjour" none rfl
  have h2 := claim_C5 "aaaaaaaaaaaaaaaaaaaaaaaaaaaaaaaaaaaaaaaaaaaaaaaaaaa"
    "aaaaaaaaaaaaaaaaaaaaaaaaaaaaaaaaaaaaaaaaaaaaaaaaaab" "fr" none
    ([] : List (String × String)) "Bonjour" "Bonjour" none rfl
  exact ⟨h.2.1 rfl, h2.2.2 rfl (by norm_num [ORACLE_CACHE_SIZE])⟩

-- ==================== C6: cache hits return the stored value ====================

theorem DeepL_translate_stores {net : CallOutcome} {cache : List (String × String)}
    {text target_lang : String} {source_lang : Option String} {out : TranslateOut}
    {v : String}
    (h : DeepL_translate net cache text target_lang source_lang = .ok out)
    (hv : out.result = some v) :
    pyGet out.cache (deepl_cache_key text target_lang source_lang) = some v := by
  cases hget : pyGet cache (deepl_cache_key text target_lang source_lang) with
  | some w =>
    simp only [DeepL_translate, hget] at h
    cases h
    rw [hget]
    exact hv
  | none =>
    have htry : ∀ hh : http_try net cache (deepl_cache_key text target_lang source_lang) = out,
        pyGet out.cache (deepl_cache_key text target_lang source_lang) = some v := by
      intro hh
      cases net with
      | raised =>
        rw [← hh] at hv
        cases hv
      | ok status payloadText =>
        by_cases hst : status = 200
        · subst hst
          cases payloadText with
          | some t =>
            simp only [http_try, if_pos rfl] at hh
            have hvt : some t = some v := by rw [← hh] at hv; exact hv
            rw [← hh]
            show pyGet (pySet cache (deepl_cache_key text target_lang source_lang) t)
              (deepl_cache_key text target_lang source_lang) = some v
            rw [pyGet_pySet_self]
            exact hvt
          | none =>
            simp only [http_try, if_pos rfl] at hh
            rw [← hh] at hv
            cases hv
        · simp only [http_try, if_neg hst] at hh
          rw [← hh] at hv
          cases hv
    cases htgt : LANGUAGES_get target_lang with
    | none =>
      simp only [DeepL_translate, hget, htgt] at h
      cases h
      cases hv
    | some cfg =>
      cases source_lang with
      | none =>
        simp only [DeepL_translate, hget, htgt] at h
        exact htry (Except.ok.inj h)
      | some src =>
        cases hregc : LANGUAGES_get src with
        | none =>
          simp only [DeepL_translate, hget, htgt, hregc] at h
          cases h
        | some cfg2 =>
          simp only [DeepL_translate, hget, htgt, hregc] at h
          exact htry (Except.ok.inj h)

/-- **C6.** If a prior src/main.py DeepL translate call succeeded with
value `v` (so `v` is stored under the call's cache key), any later call on
the resulting cache with the same text, target and source returns exactly
`v`, leaves the cache unchanged, and issues no outbound call — whatever
the network would have answered.  Likewise for the src/main_oracle.py
service: a call whose (truncated) cache key is bound to `v` returns `v`
with no outbound call. -/
theorem claim_C6 (net net2 : CallOutcome) (cache : List (String × String))
    (text target_lang : String) (source_lang : Option String) (out : TranslateOut)
    (v : String)
    (h : DeepL_translate net cache text target_lang source_lang = .ok out)
    (hv : out.result = some v) :
    DeepL_translate net2 out.cache text target_lang source_lang =
      .ok ⟨some v, out.cache, 0⟩ ∧
    (∀ doRes cache2 t2, pyGet cache2 (oracle_cache_key t2 target_lang source_lang) = some v →
      Oracle_service_translate doRes cache2 t2 target_lang source_lang =
        ⟨some v, cache2, 0⟩) := by
  constructor
  · have hstore := DeepL_translate_stores h hv
    simp only [DeepL_translate, hstore]
  · intro doRes cache2 t2 hhit
    simp only [Oracle_service_translate, hhit]

/-- Witness for C6: after a successful concrete first call storing
"Bonjour", the second call returns "Bonjour" from the cache with zero
outbound calls even though its network outcome is a raised error; the
oracle service likewise serves a stored "Bonjour" without calling out. -/
theorem claim_C6_witness :
    DeepL_translate .raised [("deepl_Hello_fr_None", "Bonjour")] "Hello" "fr" none =
      .ok ⟨some "Bonjour", [("deepl_Hello_fr_None", "Bonjour")], 0⟩ ∧
    Oracle_service_translate none [("Hello_fr_None", "Bonjour")] "Hello" "fr" none =
      ⟨some "Bonjour", [("Hello_fr_None", "Bonjour")], 0⟩ := by
  have h := claim_C6 (.ok 200 (some "Bonjour")) .raised [] "Hello" "fr" none
    ⟨some "Bonjour", [("deepl_Hello_fr_None", "Bonjour")], 1⟩ "Bonjour" rfl rfl
  exact ⟨h.1, h.2 none [("Hello_fr_None", "Bonjour")] "Hello" rfl⟩

-- ==================== C7: detection code mapping ====================

/-- **C7 counterexample.** src/main.py `AzureTranslator.detect_language`
checks for status exactly 200, not any 2xx status: a 204 response whose
payload names the registered provider code "fr" yields None — neither the
registry mapping nor the raw pass-through the claim requires for every
2xx response. -/
theorem claim_C7_counterexample :
    (200 ≤ 204 ∧ 204 < 300) ∧
    Azure_detect_language (.ok 204 (some "fr")) "bonjour" = none ∧
    Azure_detect_language (.ok 200 (some "fr")) "bonjour" = some "fr" :=
  ⟨⟨by omega, by omega⟩, rfl, rfl⟩

/-- **C7 (amended).** For a detection response with status exactly 200:
if some registry entry's azure locale code equals the provider's returned
code, `detect_language` returns such an entry's registry code; if no
registry entry matches, it returns the raw provider code unchanged — a
present value, not an error or absence. -/
theorem claim_C7 (detected text : String) :
    ((∃ p ∈ LANGUAGES, p.2.azure_code = detected) →
      ∃ p ∈ LANGUAGES, p.2.azure_code = detected ∧
        Azure_detect_language (.ok 200 (some detected)) text = some p.1) ∧
    ((∀ p ∈ LANGUAGES, p.2.azure_code ≠ detected) →
      Azure_detect_language (.ok 200 (some detected)) text = some detected) := by
  constructor
  · intro hex
    cases hf : LANGUAGES.find? (fun p => p.2.azure_code == detected) with
    | none =>
      obtain ⟨p, hp, hpe⟩ := hex
      have := List.find?_eq_none.mp hf p hp
      simp [hpe] at this
    | some p =>
      have hbeq := @List.find?_some _
        (fun q : String × LanguageConfig => q.2.azure_code == detected) p LANGUAGES hf
      refine ⟨p, List.mem_of_find?_eq_some hf, eq_of_beq hbeq, ?_⟩
      simp [Azure_detect_language, hf]
  · intro hall
    cases hf : LANGUAGES.find? (fun p => p.2.azure_code == detected) with
    | none => simp [Azure_detect_language, hf]
    | some p =>
      have hbeq := @List.find?_some _
        (fun q : String × LanguageConfig => q.2.azure_code == detected) p LANGUAGES hf
      exact absurd (eq_of_beq hbeq) (hall p (List.mem_of_find?_eq_some hf))

/-- Witness for C7: the provider code "zh-Hans" (registered for `zh`) is
mapped to a registry code, and the unregistered code "xx" passes through
unchanged. -/
theorem claim_C7_witness :
    (∃ p ∈ LANGUAGES, p.2.azure_code = "zh-Hans" ∧
      Azure_detect_language (.ok 200 (some "zh-Hans")) "nihao" = some p.1) ∧
    Azure_detect_language (.ok 200 (some "xx")) "hello" = some "xx" :=
  ⟨(claim_C7 "zh-Hans" "nihao").1
      ⟨("zh", ⟨"zh", "Chinese", "🇨🇳", "ZH", "zh-Hans", "zh-CN"⟩), by decide, rfl⟩,
    (claim_C7 "xx" "hello").2 (by decide)⟩

-- ==================== C8: de-duplication ====================

theorem mem_pyAddNat_self (l : List Nat) (x : Nat) : x ∈ pyAddNat l x := by
  unfold pyAddNat
  by_cases h : x ∈ l
  · rw [if_pos h]
    exact h
  · rw [if_neg h]
    exact List.mem_append_right l (List.mem_singleton.mpr rfl)

theorem not_mem_pyDiscardNat_self (l : List Nat) (x : Nat) : x ∉ pyDiscardNat l x := by
  intro h
  have := List.of_mem_filter h
  simp at this

theorem mem_reacts {ts : List (String × String)} {a : BotAction}
    (ha : a ∈ ts.filterMap (fun p => (LANGUAGES_get p.1).map
      (fun c => BotAction.addReaction c.flag))) :
    ∃ f, a = BotAction.addReaction f := by
  obtain ⟨p, hp, hpa⟩ := List.mem_filterMap.mp ha
  obtain ⟨c, hc, rfl⟩ := Option.map_eq_some'.mp hpa
  exact ⟨_, rfl⟩

theorem reacts_countP (ts : List (String × String)) :
    (ts.filterMap (fun p => (LANGUAGES_get p.1).map
      (fun c => BotAction.addReaction c.flag))).countP isReply = 0 := by
  rw [List.countP_eq_zero]
  intro a ha
  obtain ⟨f, rfl⟩ := mem_reacts ha
  simp [isReply]

theorem on_message_body_trace (st : BotState) (env : Env) (msg : Msg) :
    (on_message_body st env msg).2 = [] ∨
    ∃ ts, ts ≠ [] ∧ (on_message_body st env msg).2 =
      BotAction.postReply ts ::
        (if env.flag_reactions = true then
          ts.filterMap (fun p => (LANGUAGES_get p.1).map
            (fun c => BotAction.addReaction c.flag))
        else []) := by
  unfold on_message_body
  cases hd : env.detect with
  | none => exact Or.inl rfl
  | some source_lang =>
    dsimp only
    by_cases ht : get_target_users msg.author_id env.online_only env.members source_lang = []
    · rw [if_pos ht]
      exact Or.inl rfl
    · rw [if_neg ht]
      by_cases htr : compute_translations env.deepl env.azure msg.content source_lang
          (collect_target_langs (get_target_users msg.author_id env.online_only
            env.members source_lang)) = []
      · rw [if_pos htr]
        exact Or.inl rfl
      · rw [if_neg htr]
        split_ifs with hf
        · exact Or.inr ⟨compute_translations env.deepl env.azure msg.content source_lang
            (collect_target_langs (get_target_users msg.author_id env.online_only
              env.members source_lang)), htr, rfl⟩
        · exact Or.inr ⟨compute_translations env.deepl env.azure msg.content source_lang
            (collect_target_langs (get_target_users msg.author_id env.online_only
              env.members source_lang)), htr, rfl⟩

theorem on_message_body_count_le (st : BotState) (env : Env) (msg : Msg) :
    (on_message_body st env msg).2.countP isReply ≤ 1 := by
  rcases on_message_body_trace st env msg with h | ⟨ts, hne, h⟩
  · rw [h]
    simp
  · rw [h, List.countP_cons_of_pos _ _ (by rfl)]
    by_cases hf : env.flag_reactions = true
    · rw [if_pos hf, reacts_countP]
    · rw [if_neg hf]
      simp

theorem on_message_body_count_eq (st : BotState) (env : Env) (msg : Msg)
    (source_lang : String) (hd : env.detect = some source_lang)
    (ht : get_target_users msg.author_id env.online_only env.members source_lang ≠ [])
    (htr : compute_translations env.deepl env.azure msg.content source_lang
      (collect_target_langs (get_target_users msg.author_id env.online_only env.members
        source_lang)) ≠ []) :
    (on_message_body st env msg).2.countP isReply = 1 := by
  unfold on_message_body
  rw [hd]
  dsimp only
  rw [if_neg ht, if_neg htr]
  by_cases hf : env.flag_reactions = true
  · rw [if_pos hf, List.countP_cons_of_pos _ _ (by rfl), reacts_countP]
  · rw [if_neg hf, List.countP_cons_of_pos _ _ (by rfl)]
    rfl

/-- **C8.** De-duplication in src/main.py `on_message`: the id of a
message that passes the early guards is added to the in-memory processing
set synchronously, so a second event carrying the same id that arrives
while the first is still in flight is skipped outright — no state change,
no actions, in particular no second reply; the first run posts at most one
reply (exactly one when detection, recipients and at least one translation
succeed); and its trace removes the id from the set only as the very last
action, after the five-second sleep that follows completion. -/
theorem claim_C8 (st : BotState) (env env2 : Env) (msg : Msg)
    (hnotin : msg.id ∉ st.processing) (hbot : msg.author_bot = false)
    (hcontent : pyStrip msg.content ≠ "") (hguild : msg.has_guild = true)
    (hauto : env.auto_translate = true) :
    (on_message { st with processing := pyAddNat st.processing msg.id } env2 msg =
      ({ st with processing := pyAddNat st.processing msg.id }, [])) ∧
    (∃ acts, (on_message st env msg).2 =
        acts ++ [BotAction.sleep 5, BotAction.removeProcessing msg.id] ∧
      BotAction.removeProcessing msg.id ∉ acts ∧ BotAction.sleep 5 ∉ acts ∧
      acts.countP isReply ≤ 1) ∧
    (∀ source_lang, env.detect = some source_lang →
      get_target_users msg.author_id env.online_only env.members source_lang ≠ [] →
      compute_translations env.deepl env.azure msg.content source_lang
        (collect_target_langs (get_target_users msg.author_id env.online_only env.members
          source_lang)) ≠ [] →
      (on_message st env msg).2.countP isReply = 1) ∧
    msg.id ∉ (on_message st env msg).1.processing := by
  have hne1 : ¬(msg.author_bot = true ∨ pyStrip msg.content = "") := by
    simp [hbot, hcontent]
  have hne2 : ¬(msg.has_guild = false) := by
    simp [hguild]
  have hne3 : ¬(env.auto_translate = false) := by
    simp [hauto]
  have hrun : on_message st env msg =
      ({ (on_message_body { st with processing := pyAddNat st.processing msg.id } env msg).1
          with processing :=
            (pyDiscardNat (on_message_body { st with
              processing := pyAddNat st.processing msg.id } env msg).1.processing msg.id) },
       (on_message_body { st with processing := pyAddNat st.processing msg.id } env msg).2 ++
         [BotAction.sleep 5, BotAction.removeProcessing msg.id]) := by
    unfold on_message
    rw [if_neg hne1, if_neg hne2, if_neg hne3, if_neg hnotin]
  refine ⟨?_, ?_, ?_, ?_⟩
  · unfold on_message
    rw [if_neg hne1, if_neg hne2]
    by_cases ha : env2.auto_translate = false
    · rw [if_pos ha]
    · rw [if_neg ha, if_pos (mem_pyAddNat_self st.processing msg.id)]
  · refine ⟨(on_message_body { st with processing := pyAddNat st.processing msg.id }
      env msg).2, ?_, ?_, ?_, on_message_body_count_le _ _ _⟩
    · rw [hrun]
    · intro hmem
      rcases on_message_body_trace { st with processing := pyAddNat st.processing msg.id }
        env msg with h | ⟨ts, hne, h⟩
      · rw [h] at hmem
        cases hmem
      · rw [h] at hmem
        rcases List.mem_cons.mp hmem with heq | hmem2
        · cases heq
        · by_cases hf : env.flag_reactions = true
          · rw [if_pos hf] at hmem2
            obtain ⟨f, hfa⟩ := mem_reacts hmem2
            cases hfa
          · rw [if_neg hf] at hmem2
            cases hmem2
    · intro hmem
      rcases on_message_body_trace { st with processing := pyAddNat st.processing msg.id }
        env msg with h | ⟨ts, hne, h⟩
      · rw [h] at hmem
        cases hmem
      · rw [h] at hmem
        rcases List.mem_cons.mp hmem with heq | hmem2
        · cases heq
        · by_cases hf : env.flag_reactions = true
          · rw [if_pos hf] at hmem2
            obtain ⟨f, hfa⟩ := mem_reacts hmem2
            cases hfa
          · rw [if_neg hf] at hmem2
            cases hmem2
  · intro source_lang hd ht htr
    rw [hrun]
    simp only [List.countP_append]
    rw [on_message_body_count_eq _ _ _ source_lang hd ht htr]
    rfl
  · rw [hrun]
    exact not_mem_pyDiscardNat_self _ msg.id

/-- Witness for C8 at concrete inputs: one Spanish-role participant, a
detection result `en`, and a DeepL adapter producing a Spanish text.  The
run from an empty processing set posts exactly one reply and ends with
the id released; a second event for the same id arriving while the id is
in the processing set is a complete no-op. -/
theorem claim_C8_witness :
    (on_message ⟨[10], []⟩
        ⟨true, true, false, [⟨2, false, ["Spanish"], none, true, false⟩], some "en",
          some (fun _ _ _ => some "Hola a todos"), none, 99⟩
        ⟨10, false, 7, "Hello everyone", true⟩ =
      (⟨[10], []⟩, [])) ∧
    (on_message ⟨[], []⟩
        ⟨true, true, false, [⟨2, false, ["Spanish"], none, true, false⟩], some "en",
          some (fun _ _ _ => some "Hola a todos"), none, 99⟩
        ⟨10, false, 7, "Hello everyone", true⟩).2.countP isReply = 1 ∧
    10 ∉ (on_message ⟨[], []⟩
        ⟨true, true, false, [⟨2, false, ["Spanish"], none, true, false⟩], some "en",
          some (fun _ _ _ => some "Hola a todos"), none, 99⟩
        ⟨10, false, 7, "Hello everyone", true⟩).1.processing := by
  have h := claim_C8 ⟨[], []⟩
    ⟨true, true, false, [⟨2, false, ["Spanish"], none, true, false⟩], some "en",
      some (fun _ _ _ => some "Hola a todos"), none, 99⟩
    ⟨true, true, false, [⟨2, false, ["Spanish"], none, true, false⟩], some "en",
      some (fun _ _ _ => some "Hola a todos"), none, 99⟩
    ⟨10, false, 7, "Hello everyone", true⟩
    (List.not_mem_nil 10) rfl (by decide) rfl rfl
  exact ⟨h.1, h.2.2.1 "en" rfl (by decide) (by decide), h.2.2.2⟩

-- ==================== C9: reaction-triggered redelivery ====================

/-- **C9.** For a reaction event on a reply with a retained context (the
reactor is not the bot, the reply id has a context, the glyph matches a
registry flag): a stored non-empty translation for that language is
delivered as-is with zero on-demand pipeline calls (and with the platform
forbidding the DM, the handler still returns normally with nothing
delivered and no error); with no stored translation, exactly one on-demand
pipeline call is made on the original text and recorded source language
and its result is what gets delivered (or silently dropped when delivery
is forbidden or the user is not resolvable). -/
theorem claim_C9 (bot_user_id : Nat) (rmsgs : List (Nat × ReplyCtx))
    (deepl azure : Option (String → String → Option String → Option String))
    (payload : Payload) (ctx : ReplyCtx) (lang : String) (cfg : LanguageConfig)
    (huser : payload.user_id ≠ bot_user_id)
    (hctx : pyGet rmsgs payload.message_id = some ctx)
    (hflag : LANGUAGES.find? (fun p => payload.emoji == p.2.flag) = some (lang, cfg)) :
    (∀ v, pyGet ctx.translations lang = some v → v ≠ "" →
      on_raw_reaction_add bot_user_id rmsgs deepl azure true .delivered payload =
        ⟨0, some v, some v⟩ ∧
      on_raw_reaction_add bot_user_id rmsgs deepl azure true .forbidden payload =
        ⟨0, some v, none⟩) ∧
    (∀ user_found dm, pyGet ctx.translations lang = none →
      on_raw_reaction_add bot_user_id rmsgs deepl azure user_found dm payload =
        (match (translate_message deepl azure ctx.original_content lang
            (some ctx.source_lang)).1 with
         | none => ⟨1, none, none⟩
         | some t =>
           if user_found = true then
             match dm with
             | .delivered => ⟨1, some t, some t⟩
             | .forbidden => ⟨1, some t, none⟩
           else ⟨1, none, none⟩)) := by
  constructor
  · intro v hv hvne
    constructor
    · simp only [on_raw_reaction_add, if_neg huser, hctx, hflag, hv, if_neg hvne, if_true]
    · simp only [on_raw_reaction_add, if_neg huser, hctx, hflag, hv, if_neg hvne, if_true]
  · intro user_found dm hv
    cases htm : (translate_message deepl azure ctx.original_content lang
        (some ctx.source_lang)).1 with
    | none => simp only [on_raw_reaction_add, if_neg huser, hctx, hflag, hv, htm]
    | some t =>
      cases user_found with
      | true =>
        cases dm with
        | delivered => simp only [on_raw_reaction_add, if_neg huser, hctx, hflag, hv, htm]
        | forbidden => simp only [on_raw_reaction_add, if_neg huser, hctx, hflag, hv, htm]
      | false => simp only [on_raw_reaction_add, if_neg huser, hctx, hflag, hv, htm]

/-- Witness for C9: with a retained context for reply 42 holding a French
translation "Bonjour", the French-flag reaction delivers "Bonjour" with no
pipeline call (and is silently dropped when the platform forbids the DM);
with a context lacking a French translation, one pipeline call computes
"Bonjour!" on demand and delivers it. -/
theorem claim_C9_witness :
    (on_raw_reaction_add 1 [(42, ⟨10, "Hello", [("fr", "Bonjour")], "en"⟩)]
        none none true .delivered ⟨5, 42, "🇫🇷"⟩ = ⟨0, some "Bonjour", some "Bonjour"⟩) ∧
    (on_raw_reaction_add 1 [(42, ⟨10, "Hello", [("fr", "Bonjour")], "en"⟩)]
        none none true .forbidden ⟨5, 42, "🇫🇷"⟩ = ⟨0, some "Bonjour", none⟩) ∧
    (on_raw_reaction_add 1 [(42, ⟨10, "Hello", [], "en"⟩)]
        (some (fun _ _ _ => some "Bonjour!")) none true .delivered ⟨5, 42, "🇫🇷"⟩ =
      ⟨1, some "Bonjour!", some "Bonjour!"⟩) := by
  have h1 := claim_C9 1 [(42, ⟨10, "Hello", [("fr", "Bonjour")], "en"⟩)]
    none none ⟨5, 42, "🇫🇷"⟩ ⟨10, "Hello", [("fr", "Bonjour")], "en"⟩ "fr"
    ⟨"fr", "French", "🇫🇷", "FR", "fr", "fr"⟩ (by decide) rfl rfl
  have h2 := claim_C9 1 [(42, ⟨10, "Hello", [], "en"⟩)]
    (some (fun _ _ _ => some "Bonjour!")) none ⟨5, 42, "🇫🇷"⟩ ⟨10, "Hello", [], "en"⟩ "fr"
    ⟨"fr", "French", "🇫🇷", "FR", "fr", "fr"⟩ (by decide) rfl rfl
  refine ⟨(h1.1 "Bonjour" rfl (by decide)).1, (h1.1 "Bonjour" rfl (by decide)).2, ?_⟩
  have h3 := h2.2 true .delivered rfl
  exact h3

-- ==================== C10: no context when flag reactions disabled ====================

theorem on_message_body_rmsgs_of_flag_off {st : BotState} {env : Env} {msg : Msg}
    (hflag : env.flag_reactions = false) :
    (on_message_body st env msg).1.reaction_messages = st.reaction_messages := by
  unfold on_message_body
  cases hd : env.detect with
  | none => rfl
  | some source_lang =>
    dsimp only
    split_ifs with h1 h2 h3
    · rfl
    · rfl
    · rw [hflag] at h3
      cases h3
    · rfl

/-- **C10.** When the server's flag_reactions setting is disabled, a full
on_message run never touches `bot.reaction_messages` — no retained reply
context (PendingReplyContext) is created for the posted reply — so a later
reaction on that reply (whose id had no prior context) is ignored by
`on_raw_reaction_add`: zero on-demand pipeline calls, no private message
attempted, none delivered. -/
theorem claim_C10 (st : BotState) (env : Env) (msg : Msg)
    (hflag : env.flag_reactions = false) :
    ((on_message st env msg).1.reaction_messages = st.reaction_messages) ∧
    (∀ bot_user_id deepl azure user_found dm (payload : Payload),
      payload.message_id = env.reply_id →
      pyGet st.reaction_messages env.reply_id = none →
      on_raw_reaction_add bot_user_id (on_message st env msg).1.reaction_messages
        deepl azure user_found dm payload = ⟨0, none, none⟩) := by
  have hmain : (on_message st env msg).1.reaction_messages = st.reaction_messages := by
    unfold on_message
    split_ifs with h1 h2 h3 h4
    · rfl
    · rfl
    · rfl
    · rfl
    · exact on_message_body_rmsgs_of_flag_off hflag
  refine ⟨hmain, ?_⟩
  intro bot_user_id deepl azure user_found dm payload hpid hnone
  unfold on_raw_reaction_add
  by_cases hu : payload.user_id = bot_user_id
  · rw [if_pos hu]
  · rw [if_neg hu, hmain, hpid, hnone]

/-- Witness for C10: a concrete run with flag reactions disabled posts a
reply (reply id 99) but leaves the context table empty, and a French-flag
reaction on reply 99 afterwards is a no-op. -/
theorem claim_C10_witness :
    ((on_message ⟨[], []⟩
        ⟨true, false, false, [⟨2, false, ["Spanish"], none, true, false⟩], some "en",
          some (fun _ _ _ => some "Hola a todos"), none, 99⟩
        ⟨10, false, 7, "Hello everyone", true⟩).1.reaction_messages = []) ∧
    on_raw_reaction_add 1
      (on_message ⟨[], []⟩
        ⟨true, false, false, [⟨2, false, ["Spanish"], none, true, false⟩], some "en",
          some (fun _ _ _ => some "Hola a todos"), none, 99⟩
        ⟨10, false, 7, "Hello everyone", true⟩).1.reaction_messages
      none none true .delivered ⟨5, 99, "🇫🇷"⟩ = ⟨0, none, none⟩ := by
  have h := claim_C10 ⟨[], []⟩
    ⟨true, false, false, [⟨2, false, ["Spanish"], none, true, false⟩], some "en",
      some (fun _ _ _ => some "Hola a todos"), none, 99⟩
    ⟨10, false, 7, "Hello everyone", true⟩ rfl
  exact ⟨h.1, h.2 1 none none true .delivered ⟨5, 99, "🇫🇷"⟩ rfl rfl⟩
